import Mathlib

/-!
Shallow embedding of the FUSE-over-virtio transport core of the
asterinas virtio-fs driver (kernel/comps/virtio/src/device/filesystem).

Pure data and arithmetic are translated directly from the Rust source:
fuse.rs (wire layout table), request.rs (fuse_pad_str, read_dirent) and
device.rs (the per-operation encoders of the AnyFuseDevice impl and the
completion handler handle_recv_irq).  Machine integers are modelled as
Nat with explicit reductions modulo 2 to the 32 where the source computes
in u32, and i32 casts of u32 values are made explicit.
-/

namespace VirtioFs

/-- Modulus of the u32 machine integers the encoders compute header
lengths in. -/
def u32Mod : Nat := 2 ^ 32

/-- The effect of the Rust cast expression n as u32 on a usize value. -/
def u32cast (n : Nat) : Nat := n % u32Mod

/-- Wrapping addition of two u32 values. -/
def u32add (a b : Nat) : Nat := (a + b) % u32Mod

/-- Reinterpretation of a u32 value as an i32, as in the Rust cast
expression n as i32 applied to a u32. -/
def i32ofU32 (n : Nat) : Int := if n < 2 ^ 31 then (n : Int) else (n : Int) - 2 ^ 32

/-- The FUSE padding rule (8 - (n AND 0x7)) AND 0x7 used throughout the
source to round variable-length tails up to an 8-byte boundary. -/
def padLen8 (n : Nat) : Nat := (8 - n % 8) % 8

/-!  Struct sizes of the repr(C) wire layouts in fuse.rs.  Each constant
is the sum of the per-field sizes in declaration order; none of these
layouts has implicit alignment padding. -/

/-- Size of FuseInHeader: len u32, opcode u32, unique u64, nodeid u64,
uid u32, gid u32, pid u32, total_extlen u16, padding u16. -/
def fuseInHeader_size : Nat := 4 + 4 + 8 + 8 + 4 + 4 + 4 + 2 + 2

/-- Size of FuseOutHeader: len u32, error i32, unique u64. -/
def fuseOutHeader_size : Nat := 4 + 4 + 8

/-- Size of FuseAttr: six u64 fields then ten u32 fields. -/
def fuseAttr_size : Nat := 8 + 8 + 8 + 8 + 8 + 8 + 4 + 4 + 4 + 4 + 4 + 4 + 4 + 4 + 4 + 4

/-- Size of FuseEntryOut: nodeid, generation, entry_valid, attr_valid
u64, entry_valid_nsec, attr_valid_nsec u32, then a FuseAttr. -/
def fuseEntryOut_size : Nat := 8 + 8 + 8 + 8 + 4 + 4 + fuseAttr_size

/-- Size of FuseAttrOut: attr_valid u64, attr_valid_nsec u32, dummy u32,
then a FuseAttr. -/
def fuseAttrOut_size : Nat := 8 + 4 + 4 + fuseAttr_size

/-- Size of FuseKstatfs: five u64, four u32, spare array of six u32. -/
def fuseKstatfs_size : Nat := 8 + 8 + 8 + 8 + 8 + 4 + 4 + 4 + 4 + 4 * 6

/-- Size of FuseStatfsOut: a single FuseKstatfs. -/
def fuseStatfsOut_size : Nat := fuseKstatfs_size

/-- Size of FuseInitIn: five u32 fields and an unused array of eleven u32. -/
def fuseInitIn_size : Nat := 4 + 4 + 4 + 4 + 4 + 4 * 11

/-- Size of FuseOpenIn: flags u32, open_flags u32. -/
def fuseOpenIn_size : Nat := 4 + 4

/-- Size of FuseOpenOut: fh u64, open_flags u32, backing_id i32. -/
def fuseOpenOut_size : Nat := 8 + 4 + 4

/-- Size of FuseReadIn: fh u64, offset u64, size u32, read_flags u32,
lock_owner u64, flags u32, padding u32. -/
def fuseReadIn_size : Nat := 8 + 8 + 4 + 4 + 8 + 4 + 4

/-- Size of FuseWriteIn: same field shape as FuseReadIn. -/
def fuseWriteIn_size : Nat := 8 + 8 + 4 + 4 + 8 + 4 + 4

/-- Size of FuseWriteOut: size u32, padding u32. -/
def fuseWriteOut_size : Nat := 4 + 4

/-- Size of FuseFlushIn: fh u64, unused u32, padding u32, lock_owner u64. -/
def fuseFlushIn_size : Nat := 8 + 4 + 4 + 8

/-- Size of FuseReleaseIn: fh u64, flags u32, release_flags u32,
lock_owner u64. -/
def fuseReleaseIn_size : Nat := 8 + 4 + 4 + 8

/-- Size of FuseGetattrIn: getattr_flags u32, dummy u32, fh u64. -/
def fuseGetattrIn_size : Nat := 4 + 4 + 8

/-- Size of FuseSetattrIn: valid u32, padding u32, six u64 fields, then
eight u32 fields. -/
def fuseSetattrIn_size : Nat := 4 + 4 + 8 + 8 + 8 + 8 + 8 + 8 + 4 + 4 + 4 + 4 + 4 + 4 + 4 + 4

/-- Size of FuseAccessIn: mask u32, padding u32. -/
def fuseAccessIn_size : Nat := 4 + 4

/-- Size of FuseInterruptIn: unique u64. -/
def fuseInterruptIn_size : Nat := 8

/-- Size of FuseMkdirIn: mode u32, umask u32. -/
def fuseMkdirIn_size : Nat := 4 + 4

/-- Size of FuseCreateIn: flags, mode, umask, open_flags u32. -/
def fuseCreateIn_size : Nat := 4 + 4 + 4 + 4

/-- Size of FuseRenameIn: newdir u64. -/
def fuseRenameIn_size : Nat := 8

/-- Size of FuseRename2In: newdir u64, flags u32, padding u32. -/
def fuseRename2In_size : Nat := 8 + 4 + 4

/-- Size of FuseLinkIn: oldnodeid u64. -/
def fuseLinkIn_size : Nat := 8

/-- Size of FuseForgetIn: nlookup u64. -/
def fuseForgetIn_size : Nat := 8

/-- Size of FuseForgetOne: nodeid u64, nlookup u64. -/
def fuseForgetOne_size : Nat := 8 + 8

/-- Size of FuseBatchForgetIn: count u32, dummy u32. -/
def fuseBatchForgetIn_size : Nat := 4 + 4

/-- Size of FuseBmapIn: block u64, blocksize u32, padding u32. -/
def fuseBmapIn_size : Nat := 8 + 4 + 4

/-- Size of FuseBmapOut: block u64. -/
def fuseBmapOut_size : Nat := 8

/-- Size of FuseFallocateIn: fh, offset, length u64, mode u32, padding u32. -/
def fuseFallocateIn_size : Nat := 8 + 8 + 8 + 4 + 4

/-- Size of FuseFsyncIn: fh u64, fsync_flags u32, padding u32. -/
def fuseFsyncIn_size : Nat := 8 + 4 + 4

/-- Size of FuseGetxattrIn: size u32, padding u32. -/
def fuseGetxattrIn_size : Nat := 4 + 4

/-- Size of FuseGetxattrOut: size u32, padding u32. -/
def fuseGetxattrOut_size : Nat := 4 + 4

/-- Size of FuseIoctlIn: fh u64, flags u32, cmd u32, arg u64, in_size u32,
out_size u32. -/
def fuseIoctlIn_size : Nat := 8 + 4 + 4 + 8 + 4 + 4

/-- Size of FuseIoctlOut: result i32, flags, in_iovs, out_iovs u32. -/
def fuseIoctlOut_size : Nat := 4 + 4 + 4 + 4

/-- Size of FuseFileLock: start u64, end u64, type u32, pid u32. -/
def fuseFileLock_size : Nat := 8 + 8 + 4 + 4

/-- Size of FuseLkOut: a single FuseFileLock. -/
def fuseLkOut_size : Nat := fuseFileLock_size

/-- Size of FuseLseekIn: fh u64, offset u64, whence u32, padding u32. -/
def fuseLseekIn_size : Nat := 8 + 8 + 4 + 4

/-- Size of FuseLseekOut: offset u64. -/
def fuseLseekOut_size : Nat := 8

/-- Size of FuseMknodIn: mode, rdev, umask, padding u32. -/
def fuseMknodIn_size : Nat := 4 + 4 + 4 + 4

/-- Size of FusePollIn: fh u64, kh u64, flags u32, events u32. -/
def fusePollIn_size : Nat := 8 + 8 + 4 + 4

/-- Size of FusePollOut: revents u32, padding u32. -/
def fusePollOut_size : Nat := 4 + 4

/-- Size of FuseDirent: ino u64, off u64, namelen u32, type u32; the
trailing name field is a zero-sized array. -/
def fuseDirent_size : Nat := 8 + 8 + 4 + 4

/-- The FUSE opcode table of fuse.rs, with the numeric values of the
stable FUSE ABI. -/
inductive FuseOpcode where
  | FuseLookup
  | FuseForget
  | FuseGetattr
  | FuseSetattr
  | FuseReadlink
  | FuseSymlink
  | FuseMknod
  | FuseMkdir
  | FuseUnlink
  | FuseRmdir
  | FuseRename
  | FuseLink
  | FuseOpen
  | FuseRead
  | FuseWrite
  | FuseStatfs
  | FuseRelease
  | FuseFsync
  | FuseSetxattr
  | FuseGetxattr
  | FuseListxattr
  | FuseRemovexattr
  | FuseFlush
  | FuseInit
  | FuseOpendir
  | FuseReaddir
  | FuseReleasedir
  | FuseFsyncdir
  | FuseGetlk
  | FuseSetlk
  | FuseSetlkw
  | FuseAccess
  | FuseCreate
  | FuseInterrupt
  | FuseBmap
  | FuseDestroy
  | FuseIoctl
  | FusePoll
  | FuseNotifyReply
  | FuseBatchForget
  | FuseFallocate
  | FuseReaddirplus
  | FuseRename2
  | FuseLseek
  | FuseCopyFileRange
  | FuseSetupmapping
  | FuseRemovemapping
  | FuseSyncfs
  | FuseTmpfile
  | FuseStatx
  | CuseInit
  deriving DecidableEq

/-- Numeric value of each opcode, as in the repr(u32) enum of fuse.rs. -/
def FuseOpcode.toU32 : FuseOpcode → Nat
  | .FuseLookup => 1
  | .FuseForget => 2
  | .FuseGetattr => 3
  | .FuseSetattr => 4
  | .FuseReadlink => 5
  | .FuseSymlink => 6
  | .FuseMknod => 8
  | .FuseMkdir => 9
  | .FuseUnlink => 10
  | .FuseRmdir => 11
  | .FuseRename => 12
  | .FuseLink => 13
  | .FuseOpen => 14
  | .FuseRead => 15
  | .FuseWrite => 16
  | .FuseStatfs => 17
  | .FuseRelease => 18
  | .FuseFsync => 20
  | .FuseSetxattr => 21
  | .FuseGetxattr => 22
  | .FuseListxattr => 23
  | .FuseRemovexattr => 24
  | .FuseFlush => 25
  | .FuseInit => 26
  | .FuseOpendir => 27
  | .FuseReaddir => 28
  | .FuseReleasedir => 29
  | .FuseFsyncdir => 30
  | .FuseGetlk => 31
  | .FuseSetlk => 32
  | .FuseSetlkw => 33
  | .FuseAccess => 34
  | .FuseCreate => 35
  | .FuseInterrupt => 36
  | .FuseBmap => 37
  | .FuseDestroy => 38
  | .FuseIoctl => 39
  | .FusePoll => 40
  | .FuseNotifyReply => 41
  | .FuseBatchForget => 42
  | .FuseFallocate => 43
  | .FuseReaddirplus => 44
  | .FuseRename2 => 45
  | .FuseLseek => 46
  | .FuseCopyFileRange => 47
  | .FuseSetupmapping => 48
  | .FuseRemovemapping => 49
  | .FuseSyncfs => 50
  | .FuseTmpfile => 51
  | .FuseStatx => 52
  | .CuseInit => 4096

/-- The fixed 40-byte request preamble written at the head of every
request, mirroring the FuseInHeader struct of fuse.rs.  All fields are
kept as Nat values of the respective machine width. -/
structure FuseInHeader where
  len : Nat
  opcode : Nat
  unique : Nat
  nodeid : Nat
  uid : Nat
  gid : Nat
  pid : Nat
  total_extlen : Nat
  padding : Nat
  deriving DecidableEq

/-- The fixed 16-byte response preamble, mirroring FuseOutHeader. -/
structure FuseOutHeader where
  len : Nat
  error : Int
  unique : Nat
  deriving DecidableEq

/-- Rust Vec resize with zero fill: truncate to n elements when the
vector is at least that long, otherwise append zero bytes up to n. -/
def resizeZeros (xs : List Nat) (n : Nat) : List Nat :=
  if n ≤ xs.length then xs.take n else xs ++ List.replicate (n - xs.length) 0

/-- fuse_pad_str of request.rs: the byte length is taken as u32, one is
added for the terminating NUL when repr_c is set, the length is rounded
up to an 8-byte boundary with the FUSE padding rule, and the byte vector
is resized with zero fill to that padded length. -/
def fuse_pad_str (name : List Nat) (repr_c : Bool) : List Nat :=
  let name_len := u32add (u32cast name.length) (if repr_c then 1 else 0)
  let name_pad_len := u32add name_len ((8 - name_len % 8) % 8)
  resizeZeros name name_pad_len

/-- The inline payload padding of FilesystemDevice.write in device.rs:
the data slice is concatenated with (8 - (len AND 0x7)) AND 0x7 zero
bytes. -/
def write_pad_data (data : List Nat) : List Nat :=
  data ++ List.replicate ((8 - data.length % 8) % 8) 0

/-- The virtqueue an operation locks and submits its descriptor pair on:
the device's high-priority queue or one of the numbered request queues. -/
inductive QueueSel where
  | hiprio
  | request (i : Nat)
  deriving DecidableEq

/-- What one AnyFuseDevice method of device.rs does with a call: which
queue it submits on, the FuseInHeader it writes, the byte length len_in
of the device-readable slice, the total byte length of the concatenated
request plus response-placeholder image it builds, and whether the
notify doorbell is rung as a function of the should_notify result. -/
structure Submission where
  queue : QueueSel
  header : FuseInHeader
  len_in : Nat
  concat_len : Nat
  notifyOn : Bool → Bool

namespace FilesystemDevice

/-- Encoder of FilesystemDevice.init: FuseInitIn body on request queue 0
with a 256-byte init response placeholder. -/
def init : Submission :=
  { queue := .request 0
    header := { len := u32add fuseInitIn_size fuseInHeader_size
                opcode := FuseOpcode.toU32 .FuseInit
                unique := 0, nodeid := 0, uid := 0, gid := 0, pid := 0
                total_extlen := 0, padding := 0 }
    len_in := fuseInitIn_size + fuseInHeader_size
    concat_len := fuseInHeader_size + fuseInitIn_size + fuseOutHeader_size + 256
    notifyOn := fun s => s }

/-- Encoder of FilesystemDevice.opendir. -/
def opendir (nodeid _flags : Nat) : Submission :=
  { queue := .request 0
    header := { len := u32add fuseOpenIn_size fuseInHeader_size
                opcode := FuseOpcode.toU32 .FuseOpendir
                unique := 0, nodeid := nodeid, uid := 0, gid := 0, pid := 0
                total_extlen := 0, padding := 0 }
    len_in := fuseOpenIn_size + fuseInHeader_size
    concat_len := fuseInHeader_size + fuseOpenIn_size + fuseOutHeader_size + fuseOpenOut_size
    notifyOn := fun s => s }

/-- Encoder of FilesystemDevice.readdir: a FuseReadIn body with a
1024-byte directory-stream response placeholder. -/
def readdir (nodeid _fh _offset _size : Nat) : Submission :=
  { queue := .request 0
    header := { len := u32add fuseReadIn_size fuseInHeader_size
                opcode := FuseOpcode.toU32 .FuseReaddir
                unique := 0, nodeid := nodeid, uid := 0, gid := 0, pid := 0
                total_extlen := 0, padding := 0 }
    len_in := fuseReadIn_size + fuseInHeader_size
    concat_len := fuseInHeader_size + fuseReadIn_size + fuseOutHeader_size + 1024
    notifyOn := fun s => s }

/-- Encoder of FilesystemDevice.read: a FuseReadIn body with a 1024-byte
data response placeholder. -/
def read (nodeid _fh _offset _size : Nat) : Submission :=
  { queue := .request 0
    header := { len := u32add fuseReadIn_size fuseInHeader_size
                opcode := FuseOpcode.toU32 .FuseRead
                unique := 0, nodeid := nodeid, uid := 0, gid := 0, pid := 0
                total_extlen := 0, padding := 0 }
    len_in := fuseReadIn_size + fuseInHeader_size
    concat_len := fuseInHeader_size + fuseReadIn_size + fuseOutHeader_size + 1024
    notifyOn := fun s => s }

/-- Encoder of FilesystemDevice.open; named open_ because open is a Lean
keyword. -/
def open_ (nodeid _flags : Nat) : Submission :=
  { queue := .request 0
    header := { len := u32add fuseOpenIn_size fuseInHeader_size
                opcode := FuseOpcode.toU32 .FuseOpen
                unique := 0, nodeid := nodeid, uid := 0, gid := 0, pid := 0
                total_extlen := 0, padding := 0 }
    len_in := fuseOpenIn_size + fuseInHeader_size
    concat_len := fuseInHeader_size + fuseOpenIn_size + fuseOutHeader_size + fuseOpenOut_size
    notifyOn := fun s => s }

/-- Encoder of FilesystemDevice.flush. -/
def flush (nodeid _fh _lock_owner : Nat) : Submission :=
  { queue := .request 0
    header := { len := u32add fuseFlushIn_size fuseInHeader_size
                opcode := FuseOpcode.toU32 .FuseFlush
                unique := 0, nodeid := nodeid, uid := 0, gid := 0, pid := 0
                total_extlen := 0, padding := 0 }
    len_in := fuseFlushIn_size + fuseInHeader_size
    concat_len := fuseInHeader_size + fuseFlushIn_size + fuseOutHeader_size
    notifyOn := fun s => s }

/-- Encoder of FilesystemDevice.releasedir. -/
def releasedir (nodeid _fh _flags : Nat) : Submission :=
  { queue := .request 0
    header := { len := u32add fuseReleaseIn_size fuseInHeader_size
                opcode := FuseOpcode.toU32 .FuseReleasedir
                unique := 0, nodeid := nodeid, uid := 0, gid := 0, pid := 0
                total_extlen := 0, padding := 0 }
    len_in := fuseReleaseIn_size + fuseInHeader_size
    concat_len := fuseInHeader_size + fuseReleaseIn_size + fuseOutHeader_size
    notifyOn := fun s => s }

/-- Encoder of FilesystemDevice.getattr. -/
def getattr (nodeid _fh _flags _dummy : Nat) : Submission :=
  { queue := .request 0
    header := { len := u32add fuseGetattrIn_size fuseInHeader_size
                opcode := FuseOpcode.toU32 .FuseGetattr
                unique := 0, nodeid := nodeid, uid := 0, gid := 0, pid := 0
                total_extlen := 0, padding := 0 }
    len_in := fuseGetattrIn_size + fuseInHeader_size
    concat_len := fuseInHeader_size + fuseGetattrIn_size + fuseOutHeader_size + fuseAttrOut_size
    notifyOn := fun s => s }

/-- Encoder of FilesystemDevice.setattr. -/
def setattr (nodeid _valid _fh _size _lock_owner _atime _mtime _ctime
    _atimensec _mtimensec _ctimensec _mode _uid _gid : Nat) : Submission :=
  { queue := .request 0
    header := { len := u32add fuseInHeader_size fuseSetattrIn_size
                opcode := FuseOpcode.toU32 .FuseSetattr
                unique := 0, nodeid := nodeid, uid := 0, gid := 0, pid := 0
                total_extlen := 0, padding := 0 }
    len_in := fuseSetattrIn_size + fuseInHeader_size
    concat_len := fuseInHeader_size + fuseSetattrIn_size + fuseOutHeader_size + fuseAttrOut_size
    notifyOn := fun s => s }

/-- Encoder of FilesystemDevice.lookup: the name padded by fuse_pad_str
as the variable tail, with a FuseEntryOut response placeholder. -/
def lookup (nodeid : Nat) (name : List Nat) : Submission :=
  { queue := .request 0
    header := { len := u32add fuseInHeader_size (u32cast (fuse_pad_str name true).length)
                opcode := FuseOpcode.toU32 .FuseLookup
                unique := 0, nodeid := nodeid, uid := 0, gid := 0, pid := 0
                total_extlen := 0, padding := 0 }
    len_in := (fuse_pad_str name true).length + fuseInHeader_size
    concat_len := fuseInHeader_size + (fuse_pad_str name true).length +
      fuseOutHeader_size + fuseEntryOut_size
    notifyOn := fun s => s }

/-- Encoder of FilesystemDevice.release. -/
def release (nodeid _fh _flags _lock_owner : Nat) (_flush : Bool) : Submission :=
  { queue := .request 0
    header := { len := u32add fuseReleaseIn_size fuseInHeader_size
                opcode := FuseOpcode.toU32 .FuseRelease
                unique := 0, nodeid := nodeid, uid := 0, gid := 0, pid := 0
                total_extlen := 0, padding := 0 }
    len_in := fuseReleaseIn_size + fuseInHeader_size
    concat_len := fuseInHeader_size + fuseReleaseIn_size + fuseOutHeader_size
    notifyOn := fun s => s }

/-- Encoder of FilesystemDevice.access. -/
def access (nodeid _mask : Nat) : Submission :=
  { queue := .request 0
    header := { len := u32add fuseAccessIn_size fuseInHeader_size
                opcode := FuseOpcode.toU32 .FuseAccess
                unique := 0, nodeid := nodeid, uid := 0, gid := 0, pid := 0
                total_extlen := 0, padding := 0 }
    len_in := fuseAccessIn_size + fuseInHeader_size
    concat_len := fuseInHeader_size + fuseAccessIn_size + fuseOutHeader_size + fuseAttrOut_size
    notifyOn := fun s => s }

/-- Encoder of FilesystemDevice.statfs: a bare header request. -/
def statfs (nodeid : Nat) : Submission :=
  { queue := .request 0
    header := { len := u32cast fuseInHeader_size
                opcode := FuseOpcode.toU32 .FuseStatfs
                unique := 0, nodeid := nodeid, uid := 0, gid := 0, pid := 0
                total_extlen := 0, padding := 0 }
    len_in := fuseInHeader_size
    concat_len := fuseInHeader_size + fuseOutHeader_size + fuseStatfsOut_size
    notifyOn := fun s => s }

/-- Encoder of FilesystemDevice.interrupt: the only operation whose
header carries a nonzero unique, namely the unique of the request being
interrupted; submitted on the high-priority queue. -/
def interrupt (unique : Nat) : Submission :=
  { queue := .hiprio
    header := { len := u32add fuseInterruptIn_size fuseInHeader_size
                opcode := FuseOpcode.toU32 .FuseInterrupt
                unique := unique, nodeid := 0, uid := 0, gid := 0, pid := 0
                total_extlen := 0, padding := 0 }
    len_in := fuseInterruptIn_size + fuseInHeader_size
    concat_len := fuseInHeader_size + fuseInterruptIn_size + fuseOutHeader_size
    notifyOn := fun s => s }

/-- Encoder of FilesystemDevice.mkdir. -/
def mkdir (nodeid _mode _umask : Nat) (name : List Nat) : Submission :=
  { queue := .request 0
    header := { len := u32add (u32add fuseMkdirIn_size
                  (u32cast (fuse_pad_str name true).length)) fuseInHeader_size
                opcode := FuseOpcode.toU32 .FuseMkdir
                unique := 0, nodeid := nodeid, uid := 0, gid := 0, pid := 0
                total_extlen := 0, padding := 0 }
    len_in := (fuse_pad_str name true).length + fuseMkdirIn_size + fuseInHeader_size
    concat_len := fuseInHeader_size + fuseMkdirIn_size + (fuse_pad_str name true).length +
      fuseOutHeader_size + fuseEntryOut_size
    notifyOn := fun s => s }

/-- Encoder of FilesystemDevice.create. -/
def create (nodeid : Nat) (name : List Nat) (_mode _umask _flags : Nat) : Submission :=
  { queue := .request 0
    header := { len := u32add (u32add fuseCreateIn_size
                  (u32cast (fuse_pad_str name true).length)) fuseInHeader_size
                opcode := FuseOpcode.toU32 .FuseCreate
                unique := 0, nodeid := nodeid, uid := 0, gid := 0, pid := 0
                total_extlen := 0, padding := 0 }
    len_in := (fuse_pad_str name true).length + fuseCreateIn_size + fuseInHeader_size
    concat_len := fuseInHeader_size + fuseCreateIn_size + (fuse_pad_str name true).length +
      fuseOutHeader_size + fuseEntryOut_size
    notifyOn := fun s => s }

/-- Encoder of FilesystemDevice.destroy: a bare header request on
request queue 0. -/
def destroy : Submission :=
  { queue := .request 0
    header := { len := u32cast fuseInHeader_size
                opcode := FuseOpcode.toU32 .FuseDestroy
                unique := 0, nodeid := 0, uid := 0, gid := 0, pid := 0
                total_extlen := 0, padding := 0 }
    len_in := fuseInHeader_size
    concat_len := fuseInHeader_size + fuseOutHeader_size
    notifyOn := fun s => s }

/-- Encoder of FilesystemDevice.rename: old and new names joined with an
embedded NUL byte, then padded as one tail. -/
def rename (nodeid : Nat) (name : List Nat) (_newdir : Nat) (newname : List Nat) : Submission :=
  { queue := .request 0
    header := { len := u32add (u32add fuseRenameIn_size
                  (u32cast (fuse_pad_str (name ++ 0 :: newname) true).length)) fuseInHeader_size
                opcode := FuseOpcode.toU32 .FuseRename
                unique := 0, nodeid := nodeid, uid := 0, gid := 0, pid := 0
                total_extlen := 0, padding := 0 }
    len_in := (fuse_pad_str (name ++ 0 :: newname) true).length +
      fuseRenameIn_size + fuseInHeader_size
    concat_len := fuseInHeader_size + fuseRenameIn_size +
      (fuse_pad_str (name ++ 0 :: newname) true).length +
      fuseOutHeader_size + fuseEntryOut_size
    notifyOn := fun s => s }

/-- Encoder of FilesystemDevice.rename2: like rename with a FuseRename2In
body; the source submits the descriptor pair but has no notify step. -/
def rename2 (nodeid : Nat) (name : List Nat) (_newdir : Nat) (newname : List Nat)
    (_flags : Nat) : Submission :=
  { queue := .request 0
    header := { len := u32add (u32add fuseRename2In_size
                  (u32cast (fuse_pad_str (name ++ 0 :: newname) true).length)) fuseInHeader_size
                opcode := FuseOpcode.toU32 .FuseRename2
                unique := 0, nodeid := nodeid, uid := 0, gid := 0, pid := 0
                total_extlen := 0, padding := 0 }
    len_in := (fuse_pad_str (name ++ 0 :: newname) true).length +
      fuseRename2In_size + fuseInHeader_size
    concat_len := fuseInHeader_size + fuseRename2In_size +
      (fuse_pad_str (name ++ 0 :: newname) true).length +
      fuseOutHeader_size + fuseEntryOut_size
    notifyOn := fun _ => false }

/-- Encoder of FilesystemDevice.write: the data payload padded inline to
an 8-byte boundary as the variable tail. -/
def write (nodeid _fh _offset : Nat) (data : List Nat) : Submission :=
  { queue := .request 0
    header := { len := u32add (u32add fuseInHeader_size fuseWriteIn_size)
                  (u32cast (write_pad_data data).length)
                opcode := FuseOpcode.toU32 .FuseWrite
                unique := 0, nodeid := nodeid, uid := 0, gid := 0, pid := 0
                total_extlen := 0, padding := 0 }
    len_in := fuseWriteIn_size + fuseInHeader_size + (write_pad_data data).length
    concat_len := fuseInHeader_size + fuseWriteIn_size + (write_pad_data data).length +
      fuseOutHeader_size + fuseWriteOut_size
    notifyOn := fun s => s }

/-- Encoder of FilesystemDevice.forget: submitted on the high-priority
queue. -/
def forget (nodeid _nlookup : Nat) : Submission :=
  { queue := .hiprio
    header := { len := u32add fuseForgetIn_size fuseInHeader_size
                opcode := FuseOpcode.toU32 .FuseForget
                unique := 0, nodeid := nodeid, uid := 0, gid := 0, pid := 0
                total_extlen := 0, padding := 0 }
    len_in := fuseForgetIn_size + fuseInHeader_size
    concat_len := fuseInHeader_size + fuseForgetIn_size + fuseOutHeader_size
    notifyOn := fun s => s }

/-- Encoder of FilesystemDevice.batch_forget: the header len field is
computed from the size of FuseBatchForgetIn while the readable slice
holds one FuseForgetOne record per list entry; submitted on the
high-priority queue. -/
def batch_forget (forget_list : List (Nat × Nat)) : Submission :=
  { queue := .hiprio
    header := { len := u32add fuseBatchForgetIn_size fuseInHeader_size
                opcode := FuseOpcode.toU32 .FuseBatchForget
                unique := 0, nodeid := 0, uid := 0, gid := 0, pid := 0
                total_extlen := 0, padding := 0 }
    len_in := forget_list.length * fuseForgetOne_size + fuseInHeader_size
    concat_len := fuseInHeader_size + forget_list.length * fuseForgetOne_size +
      fuseOutHeader_size
    notifyOn := fun s => s }

/-- Encoder of FilesystemDevice.link. -/
def link (nodeid _oldnodeid : Nat) (name : List Nat) : Submission :=
  { queue := .request 0
    header := { len := u32add (u32add fuseLinkIn_size
                  (u32cast (fuse_pad_str name true).length)) fuseInHeader_size
                opcode := FuseOpcode.toU32 .FuseLink
                unique := 0, nodeid := nodeid, uid := 0, gid := 0, pid := 0
                total_extlen := 0, padding := 0 }
    len_in := (fuse_pad_str name true).length + fuseLinkIn_size + fuseInHeader_size
    concat_len := fuseInHeader_size + fuseLinkIn_size + (fuse_pad_str name true).length +
      fuseOutHeader_size + fuseEntryOut_size
    notifyOn := fun s => s }

/-- Encoder of FilesystemDevice.unlink. -/
def unlink (nodeid : Nat) (name : List Nat) : Submission :=
  { queue := .request 0
    header := { len := u32add (u32cast (fuse_pad_str name true).length) fuseInHeader_size
                opcode := FuseOpcode.toU32 .FuseUnlink
                unique := 0, nodeid := nodeid, uid := 0, gid := 0, pid := 0
                total_extlen := 0, padding := 0 }
    len_in := (fuse_pad_str name true).length + fuseInHeader_size
    concat_len := fuseInHeader_size + (fuse_pad_str name true).length +
      fuseOutHeader_size + fuseEntryOut_size
    notifyOn := fun s => s }

/-- Encoder of FilesystemDevice.bmap. -/
def bmap (nodeid _blocksize _index : Nat) : Submission :=
  { queue := .request 0
    header := { len := u32add fuseBmapIn_size fuseInHeader_size
                opcode := FuseOpcode.toU32 .FuseBmap
                unique := 0, nodeid := nodeid, uid := 0, gid := 0, pid := 0
                total_extlen := 0, padding := 0 }
    len_in := fuseBmapIn_size + fuseInHeader_size
    concat_len := fuseInHeader_size + fuseBmapIn_size + fuseOutHeader_size + fuseBmapOut_size
    notifyOn := fun s => s }

/-- Encoder of FilesystemDevice.fallocate. -/
def fallocate (nodeid _fh _offset _length _mode : Nat) : Submission :=
  { queue := .request 0
    header := { len := u32add fuseFallocateIn_size fuseInHeader_size
                opcode := FuseOpcode.toU32 .FuseFallocate
                unique := 0, nodeid := nodeid, uid := 0, gid := 0, pid := 0
                total_extlen := 0, padding := 0 }
    len_in := fuseFallocateIn_size + fuseInHeader_size
    concat_len := fuseInHeader_size + fuseFallocateIn_size + fuseOutHeader_size
    notifyOn := fun s => s }

/-- Encoder of FilesystemDevice.fsync: the source writes the opcode value
of FuseFsyncdir into this header, not that of FuseFsync. -/
def fsync (nodeid _fh _fsync_flags : Nat) : Submission :=
  { queue := .request 0
    header := { len := u32add fuseInHeader_size fuseFsyncIn_size
                opcode := FuseOpcode.toU32 .FuseFsyncdir
                unique := 0, nodeid := nodeid, uid := 0, gid := 0, pid := 0
                total_extlen := 0, padding := 0 }
    len_in := fuseFsyncIn_size + fuseInHeader_size
    concat_len := fuseInHeader_size + fuseFsyncIn_size + fuseOutHeader_size
    notifyOn := fun s => s }

/-- Encoder of FilesystemDevice.fsyncdir: a bare header request. -/
def fsyncdir (nodeid _fh _datasync : Nat) : Submission :=
  { queue := .request 0
    header := { len := u32cast fuseInHeader_size
                opcode := FuseOpcode.toU32 .FuseFsyncdir
                unique := 0, nodeid := nodeid, uid := 0, gid := 0, pid := 0
                total_extlen := 0, padding := 0 }
    len_in := fuseInHeader_size
    concat_len := fuseInHeader_size + fuseOutHeader_size
    notifyOn := fun s => s }

/-- Encoder of FilesystemDevice.getlk: a bare header request with a
FuseLkOut response placeholder. -/
def getlk (nodeid _fh _lock_owner _start _end _typ _pid : Nat) : Submission :=
  { queue := .request 0
    header := { len := u32cast fuseInHeader_size
                opcode := FuseOpcode.toU32 .FuseGetlk
                unique := 0, nodeid := nodeid, uid := 0, gid := 0, pid := 0
                total_extlen := 0, padding := 0 }
    len_in := fuseInHeader_size
    concat_len := fuseInHeader_size + fuseOutHeader_size + fuseLkOut_size
    notifyOn := fun s => s }

/-- Encoder of FilesystemDevice.getxattr. -/
def getxattr (nodeid : Nat) (name : List Nat) (_size : Nat) : Submission :=
  { queue := .request 0
    header := { len := u32add (u32add fuseGetxattrIn_size
                  (u32cast (fuse_pad_str name true).length)) fuseInHeader_size
                opcode := FuseOpcode.toU32 .FuseGetxattr
                unique := 0, nodeid := nodeid, uid := 0, gid := 0, pid := 0
                total_extlen := 0, padding := 0 }
    len_in := (fuse_pad_str name true).length + fuseGetxattrIn_size + fuseInHeader_size
    concat_len := fuseInHeader_size + fuseGetxattrIn_size + (fuse_pad_str name true).length +
      fuseOutHeader_size + fuseGetxattrOut_size
    notifyOn := fun s => s }

/-- Encoder of FilesystemDevice.ioctl: the in_data tail is appended
without padding. -/
def ioctl (nodeid _fh _flags _cmd : Nat) (in_data : List Nat) : Submission :=
  { queue := .request 0
    header := { len := u32add (u32add fuseIoctlIn_size (u32cast in_data.length))
                  fuseInHeader_size
                opcode := FuseOpcode.toU32 .FuseIoctl
                unique := 0, nodeid := nodeid, uid := 0, gid := 0, pid := 0
                total_extlen := 0, padding := 0 }
    len_in := in_data.length + fuseIoctlIn_size + fuseInHeader_size
    concat_len := fuseInHeader_size + fuseIoctlIn_size + in_data.length +
      fuseOutHeader_size + fuseIoctlOut_size
    notifyOn := fun s => s }

/-- Encoder of FilesystemDevice.listxattr: a bare header request. -/
def listxattr (nodeid _size : Nat) : Submission :=
  { queue := .request 0
    header := { len := u32cast fuseInHeader_size
                opcode := FuseOpcode.toU32 .FuseListxattr
                unique := 0, nodeid := nodeid, uid := 0, gid := 0, pid := 0
                total_extlen := 0, padding := 0 }
    len_in := fuseInHeader_size
    concat_len := fuseInHeader_size + fuseOutHeader_size + fuseGetxattrOut_size
    notifyOn := fun s => s }

/-- Encoder of FilesystemDevice.lseek. -/
def lseek (nodeid _fh _offset _whence : Nat) : Submission :=
  { queue := .request 0
    header := { len := u32add fuseLseekIn_size fuseInHeader_size
                opcode := FuseOpcode.toU32 .FuseLseek
                unique := 0, nodeid := nodeid, uid := 0, gid := 0, pid := 0
                total_extlen := 0, padding := 0 }
    len_in := fuseLseekIn_size + fuseInHeader_size
    concat_len := fuseInHeader_size + fuseLseekIn_size + fuseOutHeader_size + fuseLseekOut_size
    notifyOn := fun s => s }

/-- Encoder of FilesystemDevice.mknod. -/
def mknod (nodeid : Nat) (name : List Nat) (_mode _rdev : Nat) : Submission :=
  { queue := .request 0
    header := { len := u32add (u32add fuseMknodIn_size
                  (u32cast (fuse_pad_str name true).length)) fuseInHeader_size
                opcode := FuseOpcode.toU32 .FuseMknod
                unique := 0, nodeid := nodeid, uid := 0, gid := 0, pid := 0
                total_extlen := 0, padding := 0 }
    len_in := (fuse_pad_str name true).length + fuseMknodIn_size + fuseInHeader_size
    concat_len := fuseInHeader_size + fuseMknodIn_size + (fuse_pad_str name true).length +
      fuseOutHeader_size + fuseEntryOut_size
    notifyOn := fun s => s }

/-- Encoder of FilesystemDevice.poll. -/
def poll (nodeid _fh _events : Nat) : Submission :=
  { queue := .request 0
    header := { len := u32add fusePollIn_size fuseInHeader_size
                opcode := FuseOpcode.toU32 .FusePoll
                unique := 0, nodeid := nodeid, uid := 0, gid := 0, pid := 0
                total_extlen := 0, padding := 0 }
    len_in := fusePollIn_size + fuseInHeader_size
    concat_len := fuseInHeader_size + fusePollIn_size + fuseOutHeader_size + fusePollOut_size
    notifyOn := fun s => s }

/-- Encoder of FilesystemDevice.readlink: a bare header request. -/
def readlink (nodeid : Nat) : Submission :=
  { queue := .request 0
    header := { len := u32cast fuseInHeader_size
                opcode := FuseOpcode.toU32 .FuseReadlink
                unique := 0, nodeid := nodeid, uid := 0, gid := 0, pid := 0
                total_extlen := 0, padding := 0 }
    len_in := fuseInHeader_size
    concat_len := fuseInHeader_size + fuseOutHeader_size
    notifyOn := fun s => s }

/-- Encoder of FilesystemDevice.removexattr. -/
def removexattr (nodeid : Nat) (name : List Nat) : Submission :=
  { queue := .request 0
    header := { len := u32add (u32cast (fuse_pad_str name true).length) fuseInHeader_size
                opcode := FuseOpcode.toU32 .FuseRemovexattr
                unique := 0, nodeid := nodeid, uid := 0, gid := 0, pid := 0
                total_extlen := 0, padding := 0 }
    len_in := (fuse_pad_str name true).length + fuseInHeader_size
    concat_len := fuseInHeader_size + (fuse_pad_str name true).length + fuseOutHeader_size
    notifyOn := fun s => s }

/-- Encoder of FilesystemDevice.rmdir. -/
def rmdir (nodeid : Nat) (name : List Nat) : Submission :=
  { queue := .request 0
    header := { len := u32add (u32cast (fuse_pad_str name true).length) fuseInHeader_size
                opcode := FuseOpcode.toU32 .FuseRmdir
                unique := 0, nodeid := nodeid, uid := 0, gid := 0, pid := 0
                total_extlen := 0, padding := 0 }
    len_in := (fuse_pad_str name true).length + fuseInHeader_size
    concat_len := fuseInHeader_size + (fuse_pad_str name true).length +
      fuseOutHeader_size + fuseEntryOut_size
    notifyOn := fun s => s }

/-- Encoder of FilesystemDevice.setlk: a bare header request. -/
def setlk (nodeid _fh _lock_owner _start _end _typ _pid _sleep : Nat) : Submission :=
  { queue := .request 0
    header := { len := u32cast fuseInHeader_size
                opcode := FuseOpcode.toU32 .FuseSetlk
                unique := 0, nodeid := nodeid, uid := 0, gid := 0, pid := 0
                total_extlen := 0, padding := 0 }
    len_in := fuseInHeader_size
    concat_len := fuseInHeader_size + fuseOutHeader_size
    notifyOn := fun s => s }

/-- Encoder of FilesystemDevice.setlkw: the header len field stays at the
bare header size though a FuseFileLock body is appended to the image. -/
def setlkw (nodeid _fh _lock_owner _start _end _typ _pid _sleep : Nat) : Submission :=
  { queue := .request 0
    header := { len := u32cast fuseInHeader_size
                opcode := FuseOpcode.toU32 .FuseSetlkw
                unique := 0, nodeid := nodeid, uid := 0, gid := 0, pid := 0
                total_extlen := 0, padding := 0 }
    len_in := fuseInHeader_size
    concat_len := fuseInHeader_size + fuseFileLock_size + fuseOutHeader_size
    notifyOn := fun s => s }

/-- Encoder of FilesystemDevice.symlink: two independently padded name
tails. -/
def symlink (nodeid : Nat) (name link_ : List Nat) : Submission :=
  { queue := .request 0
    header := { len := u32add (u32add (u32cast (fuse_pad_str name true).length)
                  (u32cast (fuse_pad_str link_ true).length)) fuseInHeader_size
                opcode := FuseOpcode.toU32 .FuseSymlink
                unique := 0, nodeid := nodeid, uid := 0, gid := 0, pid := 0
                total_extlen := 0, padding := 0 }
    len_in := (fuse_pad_str name true).length + (fuse_pad_str link_ true).length +
      fuseInHeader_size
    concat_len := fuseInHeader_size + (fuse_pad_str name true).length +
      (fuse_pad_str link_ true).length + fuseOutHeader_size + fuseEntryOut_size
    notifyOn := fun s => s }

end FilesystemDevice

/-- One call to an AnyFuseDevice method, with the arguments the encoder
actually depends on carried symbolically. -/
inductive OpCall where
  | init
  | opendir (nodeid flags : Nat)
  | readdir (nodeid fh offset size : Nat)
  | read (nodeid fh offset size : Nat)
  | open_ (nodeid flags : Nat)
  | flush (nodeid fh lock_owner : Nat)
  | releasedir (nodeid fh flags : Nat)
  | getattr (nodeid fh flags dummy : Nat)
  | setattr (nodeid valid fh size lock_owner atime mtime ctime
      atimensec mtimensec ctimensec mode uid gid : Nat)
  | lookup (nodeid : Nat) (name : List Nat)
  | release (nodeid fh flags lock_owner : Nat) (flush : Bool)
  | access (nodeid mask : Nat)
  | statfs (nodeid : Nat)
  | interrupt (unique : Nat)
  | mkdir (nodeid mode umask : Nat) (name : List Nat)
  | create (nodeid : Nat) (name : List Nat) (mode umask flags : Nat)
  | destroy
  | rename (nodeid : Nat) (name : List Nat) (newdir : Nat) (newname : List Nat)
  | rename2 (nodeid : Nat) (name : List Nat) (newdir : Nat) (newname : List Nat) (flags : Nat)
  | write (nodeid fh offset : Nat) (data : List Nat)
  | forget (nodeid nlookup : Nat)
  | batch_forget (forget_list : List (Nat × Nat))
  | link (nodeid oldnodeid : Nat) (name : List Nat)
  | unlink (nodeid : Nat) (name : List Nat)
  | bmap (nodeid blocksize index : Nat)
  | fallocate (nodeid fh offset length mode : Nat)
  | fsync (nodeid fh fsync_flags : Nat)
  | fsyncdir (nodeid fh datasync : Nat)
  | getlk (nodeid fh lock_owner start end_ typ pid : Nat)
  | getxattr (nodeid : Nat) (name : List Nat) (size : Nat)
  | ioctl (nodeid fh flags cmd : Nat) (in_data : List Nat)
  | listxattr (nodeid size : Nat)
  | lseek (nodeid fh offset whence : Nat)
  | mknod (nodeid : Nat) (name : List Nat) (mode rdev : Nat)
  | poll (nodeid fh events : Nat)
  | readlink (nodeid : Nat)
  | removexattr (nodeid : Nat) (name : List Nat)
  | rmdir (nodeid : Nat) (name : List Nat)
  | setlk (nodeid fh lock_owner start end_ typ pid sleep : Nat)
  | setlkw (nodeid fh lock_owner start end_ typ pid sleep : Nat)
  | symlink (nodeid : Nat) (name link_ : List Nat)

/-- Dispatch of a call to the encoder of the corresponding
FilesystemDevice method. -/
def submissionOf : OpCall → Submission
  | .init => FilesystemDevice.init
  | .opendir nodeid flags => FilesystemDevice.opendir nodeid flags
  | .readdir nodeid fh offset size => FilesystemDevice.readdir nodeid fh offset size
  | .read nodeid fh offset size => FilesystemDevice.read nodeid fh offset size
  | .open_ nodeid flags => FilesystemDevice.open_ nodeid flags
  | .flush nodeid fh lock_owner => FilesystemDevice.flush nodeid fh lock_owner
  | .releasedir nodeid fh flags => FilesystemDevice.releasedir nodeid fh flags
  | .getattr nodeid fh flags dummy => FilesystemDevice.getattr nodeid fh flags dummy
  | .setattr a b c d e f g h i j k l m n => FilesystemDevice.setattr a b c d e f g h i j k l m n
  | .lookup nodeid name => FilesystemDevice.lookup nodeid name
  | .release nodeid fh flags lock_owner fl => FilesystemDevice.release nodeid fh flags lock_owner fl
  | .access nodeid mask => FilesystemDevice.access nodeid mask
  | .statfs nodeid => FilesystemDevice.statfs nodeid
  | .interrupt u => FilesystemDevice.interrupt u
  | .mkdir nodeid mode umask name => FilesystemDevice.mkdir nodeid mode umask name
  | .create nodeid name mode umask flags => FilesystemDevice.create nodeid name mode umask flags
  | .destroy => FilesystemDevice.destroy
  | .rename nodeid name newdir newname => FilesystemDevice.rename nodeid name newdir newname
  | .rename2 nodeid name newdir newname flags =>
      FilesystemDevice.rename2 nodeid name newdir newname flags
  | .write nodeid fh offset data => FilesystemDevice.write nodeid fh offset data
  | .forget nodeid nlookup => FilesystemDevice.forget nodeid nlookup
  | .batch_forget forget_list => FilesystemDevice.batch_forget forget_list
  | .link nodeid oldnodeid name => FilesystemDevice.link nodeid oldnodeid name
  | .unlink nodeid name => FilesystemDevice.unlink nodeid name
  | .bmap nodeid blocksize index => FilesystemDevice.bmap nodeid blocksize index
  | .fallocate nodeid fh offset length mode => FilesystemDevice.fallocate nodeid fh offset length mode
  | .fsync nodeid fh fsync_flags => FilesystemDevice.fsync nodeid fh fsync_flags
  | .fsyncdir nodeid fh datasync => FilesystemDevice.fsyncdir nodeid fh datasync
  | .getlk a b c d e f g => FilesystemDevice.getlk a b c d e f g
  | .getxattr nodeid name size => FilesystemDevice.getxattr nodeid name size
  | .ioctl nodeid fh flags cmd in_data => FilesystemDevice.ioctl nodeid fh flags cmd in_data
  | .listxattr nodeid size => FilesystemDevice.listxattr nodeid size
  | .lseek nodeid fh offset whence => FilesystemDevice.lseek nodeid fh offset whence
  | .mknod nodeid name mode rdev => FilesystemDevice.mknod nodeid name mode rdev
  | .poll nodeid fh events => FilesystemDevice.poll nodeid fh events
  | .readlink nodeid => FilesystemDevice.readlink nodeid
  | .removexattr nodeid name => FilesystemDevice.removexattr nodeid name
  | .rmdir nodeid name => FilesystemDevice.rmdir nodeid name
  | .setlk a b c d e f g h => FilesystemDevice.setlk a b c d e f g h
  | .setlkw a b c d e f g h => FilesystemDevice.setlkw a b c d e f g h
  | .symlink nodeid name link_ => FilesystemDevice.symlink nodeid name link_

/-- The unique value a call's encoder writes into its header: the
interrupt argument for interrupt, zero for every other operation. -/
def OpCall.uniqueArg : OpCall → Nat
  | .interrupt u => u
  | _ => 0

/-- Whether a call is one of the three operations the source routes to
the high-priority queue. -/
def OpCall.isHiprioOp : OpCall → Bool
  | .interrupt _ => true
  | .forget _ _ => true
  | .batch_forget _ => true
  | _ => false

/-- Byte fixture for the test name testf01 used by the test harness of
device.rs. -/
def testf01 : List Nat := [116, 101, 115, 116, 102, 48, 49]

/-- Little-endian byte image of a machine integer of w bytes, as laid
down by the repr(C) structs the driver serializes with as_bytes. -/
def leBytes : Nat → Nat → List Nat
  | 0, _ => []
  | w + 1, n => n % 256 :: leBytes w (n / 256)

/-- Little-endian machine-integer value of a byte list, as recovered by
the read_val calls of the decoder. -/
def fromLe : List Nat → Nat
  | [] => 0
  | b :: rest => b + 256 * fromLe rest

/-- The FuseDirent wire struct of fuse.rs: ino u64, off u64, namelen
u32, type u32; the trailing name field is a zero-sized array. -/
structure FuseDirent where
  ino : Nat
  off : Nat
  namelen : Nat
  type_ : Nat
  deriving DecidableEq

/-- FuseDirentWithName of request.rs: a FuseDirent and the file name
bytes read after it. -/
structure FuseDirentWithName where
  dirent : FuseDirent
  name : List Nat
  deriving DecidableEq

/-- The while loop of FuseReaddirOut.read_dirent in request.rs, reading
from the remaining bytes bs of the writable region with the remaining
declared length len (an i32 in the source).  Each pass reads a 24-byte
FuseDirent by read_val (an exhausted reader makes the unwrap panic,
modelled as none), copies namelen name bytes and the 8-byte-alignment
padding out of the reader, and decreases len by the padded record size
with namelen and pad length cast to i32. -/
def read_dirent_loop (bs : List Nat) (len : Int) : Option (List FuseDirentWithName) :=
  if len ≤ 0 then some [] else
  if _h : 24 ≤ bs.length then
    let nl := fromLe ((bs.drop 16).take 4)
    let pl := (8 - nl % 8) % 8
    match read_dirent_loop (((bs.drop 24).drop nl).drop pl)
        (len - (24 + i32ofU32 nl + i32ofU32 pl)) with
    | some ds =>
        some ({ dirent := { ino := fromLe (bs.take 8), off := fromLe ((bs.drop 8).take 8),
                            namelen := nl, type_ := fromLe ((bs.drop 20).take 4) },
                name := (bs.drop 24).take nl } :: ds)
    | none => none
  else none
termination_by bs.length
decreasing_by
  simp only [List.length_drop]
  omega

/-- FuseReaddirOut.read_dirent of request.rs: the loop is entered with
the declared response length, out_header.len as i32 minus the size of
FuseOutHeader. -/
def read_dirent (bs : List Nat) (out_header : FuseOutHeader) : Option (List FuseDirentWithName) :=
  read_dirent_loop bs (i32ofU32 out_header.len - (fuseOutHeader_size : Int))

/-- One directory entry of a synthetic device reply: the fixed fields and
the name whose length fills the namelen field. -/
structure DirentSpec where
  ino : Nat
  off : Nat
  type_ : Nat
  name : List Nat
  deriving DecidableEq

/-- Wire image of one directory entry as the FUSE directory entry stream
stores it: the 24-byte FuseDirent, the name bytes, and zero padding to
the next 8-byte boundary. -/
def encodeDirent (e : DirentSpec) : List Nat :=
  leBytes 8 e.ino ++ leBytes 8 e.off ++ leBytes 4 e.name.length ++ leBytes 4 e.type_ ++
    e.name ++ List.replicate (padLen8 e.name.length) 0

/-- Padded on-wire size of one directory entry record. -/
def direntPaddedSize (e : DirentSpec) : Nat :=
  fuseDirent_size + e.name.length + padLen8 e.name.length

/-- Concatenated wire image of a whole directory entry stream. -/
def encodeDirentStream (es : List DirentSpec) : List Nat :=
  (es.map encodeDirent).flatten

/-- Total padded byte length of a directory entry stream. -/
def streamLen (es : List DirentSpec) : Nat :=
  (es.map direntPaddedSize).sum

/-- The typed record the decoder is expected to produce for one stored
entry: the FuseDirent fields with namelen set to the stored name length,
and the name bytes themselves. -/
def decodedOf (e : DirentSpec) : FuseDirentWithName :=
  { dirent := { ino := e.ino, off := e.off, namelen := e.name.length, type_ := e.type_ },
    name := e.name }

/-- The FuseRead arm of handle_recv_irq in device.rs: when out_header.len
exceeds the size of FuseOutHeader, a buffer of out_header.len minus that
size is allocated and filled from the reader, the copy moving at most
the bytes the reader still holds; otherwise no payload byte is read.
The result is the number of payload bytes consumed. -/
def fuse_read_arm_payload (headerout_len avail : Nat) : Nat :=
  if fuseOutHeader_size < headerout_len then
    min (headerout_len - fuseOutHeader_size) avail
  else 0

/-- Result of VirtQueue.pop_used as seen by handle_recv_irq: a finished
descriptor token with its consumed length, or a queue error. -/
inductive PopResult where
  | ok (token : Nat) (len : Nat)
  | err
  deriving DecidableEq

/-- The pop step at the head of handle_recv_irq in device.rs: the
let-else binding returns from the handler on Err, so an error from
pop_used produces no decoded response and is not surfaced anywhere;
none models that silent early return. -/
def handle_recv_irq_pop : PopResult → Option Nat
  | .ok _ len => some len
  | .err => none

/-- r is the smallest multiple of 8 that is at least n. -/
def isLeastMul8Geq (r n : Nat) : Prop :=
  r % 8 = 0 ∧ n ≤ r ∧ ∀ m, m % 8 = 0 → n ≤ m → r ≤ m

/-!  Helper lemmas. -/

theorem leBytes_length (w n : Nat) : (leBytes w n).length = w := by
  induction w generalizing n with
  | zero => simp [leBytes]
  | succ w ih => simp [leBytes, ih]

theorem fromLe_leBytes (w n : Nat) (h : n < 256 ^ w) : fromLe (leBytes w n) = n := by
  induction w generalizing n with
  | zero => simp only [leBytes, fromLe]; omega
  | succ w ih =>
    simp only [leBytes, fromLe]
    rw [ih (n / 256) (by
      rw [Nat.div_lt_iff_lt_mul (by norm_num)]
      calc n < 256 ^ (w + 1) := h
        _ = 256 ^ w * 256 := by ring)]
    omega

theorem fuse_pad_str_true_eq (name : List Nat) (h : name.length + 8 < 2 ^ 32) :
    fuse_pad_str name true =
      name ++ List.replicate (1 + padLen8 (name.length + 1)) 0 := by
  have hL : name.length % 2 ^ 32 = name.length := Nat.mod_eq_of_lt (by omega)
  have hpad : (8 - (name.length + 1) % 8) % 8 < 8 := Nat.mod_lt _ (by norm_num)
  have h1 : (name.length % 2 ^ 32 + 1) % 2 ^ 32 = name.length + 1 := by
    rw [hL]; exact Nat.mod_eq_of_lt (by omega)
  simp only [fuse_pad_str, resizeZeros, u32add, u32cast, u32Mod, if_pos, h1]
  have h2 : (name.length + 1 + (8 - (name.length + 1) % 8) % 8) % 2 ^ 32 =
      name.length + 1 + (8 - (name.length + 1) % 8) % 8 :=
    Nat.mod_eq_of_lt (by omega)
  rw [h2, if_neg (by omega)]
  congr 1
  congr 1
  simp only [padLen8]
  omega

theorem i32ofU32_of_lt (n : Nat) (h : n < 2 ^ 31) : i32ofU32 n = (n : Int) := by
  unfold i32ofU32
  rw [if_pos h]

theorem parse_head (A B C D X : List Nat) (hA : A.length = 8) (hB : B.length = 8)
    (hC : C.length = 4) (hD : D.length = 4) :
    (A ++ (B ++ (C ++ (D ++ X)))).take 8 = A ∧
    ((A ++ (B ++ (C ++ (D ++ X)))).drop 8).take 8 = B ∧
    ((A ++ (B ++ (C ++ (D ++ X)))).drop 16).take 4 = C ∧
    ((A ++ (B ++ (C ++ (D ++ X)))).drop 20).take 4 = D ∧
    (A ++ (B ++ (C ++ (D ++ X)))).drop 24 = X := by
  have d8 : (A ++ (B ++ (C ++ (D ++ X)))).drop 8 = B ++ (C ++ (D ++ X)) :=
    List.drop_left' hA
  have d16 : (A ++ (B ++ (C ++ (D ++ X)))).drop 16 = C ++ (D ++ X) := by
    rw [show (16 : Nat) = 8 + 8 from rfl, ← List.drop_drop, d8]
    exact List.drop_left' hB
  have d20 : (A ++ (B ++ (C ++ (D ++ X)))).drop 20 = D ++ X := by
    rw [show (20 : Nat) = 16 + 4 from rfl, ← List.drop_drop, d16]
    exact List.drop_left' hC
  have d24 : (A ++ (B ++ (C ++ (D ++ X)))).drop 24 = X := by
    rw [show (24 : Nat) = 20 + 4 from rfl, ← List.drop_drop, d20]
    exact List.drop_left' hD
  exact ⟨List.take_left' hA, by rw [d8]; exact List.take_left' hB,
    by rw [d16]; exact List.take_left' hC, by rw [d20]; exact List.take_left' hD, d24⟩

theorem read_dirent_loop_cons (e : DirentSpec) (tail : List Nat) (len : Int)
    (hino : e.ino < 2 ^ 64) (hoff : e.off < 2 ^ 64) (htype : e.type_ < 2 ^ 32)
    (hname : e.name.length < 2 ^ 31) (hlen : 0 < len) :
    read_dirent_loop (encodeDirent e ++ tail) len =
      match read_dirent_loop tail (len - (direntPaddedSize e : Int)) with
      | some ds => some (decodedOf e :: ds)
      | none => none := by
  have hbytes : encodeDirent e ++ tail =
      leBytes 8 e.ino ++ (leBytes 8 e.off ++ (leBytes 4 e.name.length ++ (leBytes 4 e.type_ ++
        (e.name ++ (List.replicate (padLen8 e.name.length) 0 ++ tail))))) := by
    simp [encodeDirent, List.append_assoc]
  obtain ⟨p8, p16, pC, pD, p24⟩ :=
    parse_head (leBytes 8 e.ino) (leBytes 8 e.off) (leBytes 4 e.name.length)
      (leBytes 4 e.type_) (e.name ++ (List.replicate (padLen8 e.name.length) 0 ++ tail))
      (leBytes_length 8 e.ino) (leBytes_length 8 e.off)
      (leBytes_length 4 e.name.length) (leBytes_length 4 e.type_)
  have hnl : fromLe (leBytes 4 e.name.length) = e.name.length :=
    fromLe_leBytes 4 e.name.length (by
      have h4 : (256 : Nat) ^ 4 = 2 ^ 32 := by norm_num
      omega)
  have hino' : fromLe (leBytes 8 e.ino) = e.ino :=
    fromLe_leBytes 8 e.ino (by
      have h8 : (256 : Nat) ^ 8 = 2 ^ 64 := by norm_num
      omega)
  have hoff' : fromLe (leBytes 8 e.off) = e.off :=
    fromLe_leBytes 8 e.off (by
      have h8 : (256 : Nat) ^ 8 = 2 ^ 64 := by norm_num
      omega)
  have htype' : fromLe (leBytes 4 e.type_) = e.type_ :=
    fromLe_leBytes 4 e.type_ (by
      have h4 : (256 : Nat) ^ 4 = 2 ^ 32 := by norm_num
      omega)
  have hxtake : (e.name ++ (List.replicate (padLen8 e.name.length) 0 ++ tail)).take
      e.name.length = e.name := List.take_left' rfl
  have hxdrop : ((e.name ++ (List.replicate (padLen8 e.name.length) 0 ++ tail)).drop
      e.name.length).drop ((8 - e.name.length % 8) % 8) = tail := by
    rw [List.drop_left' rfl]
    rw [show (8 - e.name.length % 8) % 8 = padLen8 e.name.length from rfl]
    exact List.drop_left' (List.length_replicate _ _)
  have hi32nl : i32ofU32 e.name.length = (e.name.length : Int) := i32ofU32_of_lt _ hname
  have hi32pl : i32ofU32 (padLen8 e.name.length) = (padLen8 e.name.length : Int) :=
    i32ofU32_of_lt _ (by
      have : padLen8 e.name.length < 8 := Nat.mod_lt _ (by norm_num)
      omega)
  have hlen24 : 24 ≤ (leBytes 8 e.ino ++ (leBytes 8 e.off ++ (leBytes 4 e.name.length ++
      (leBytes 4 e.type_ ++
      (e.name ++ (List.replicate (padLen8 e.name.length) 0 ++ tail)))))).length := by
    simp [leBytes_length]
    omega
  have harith : len - (24 + i32ofU32 e.name.length + i32ofU32 ((8 - e.name.length % 8) % 8)) =
      len - (direntPaddedSize e : Int) := by
    rw [show (8 - e.name.length % 8) % 8 = padLen8 e.name.length from rfl, hi32nl, hi32pl]
    simp only [direntPaddedSize, fuseDirent_size]
    push_cast
    ring
  rw [hbytes]
  rw [read_dirent_loop]
  rw [if_neg (by omega), dif_pos hlen24]
  simp only [pC, hnl]
  simp only [p8, p16, pD, p24, hino', hoff', htype']
  rw [hxtake, hxdrop, harith]
  cases hres : read_dirent_loop tail (len - (direntPaddedSize e : Int)) with
  | none => rfl
  | some ds => simp [decodedOf]

theorem read_dirent_loop_encode (es : List DirentSpec) (junk : List Nat)
    (hwf : ∀ e ∈ es, e.ino < 2 ^ 64 ∧ e.off < 2 ^ 64 ∧ e.type_ < 2 ^ 32 ∧
      e.name.length < 2 ^ 31) :
    read_dirent_loop (encodeDirentStream es ++ junk) ((streamLen es : Int)) =
      some (es.map decodedOf) := by
  induction es generalizing junk with
  | nil =>
    rw [read_dirent_loop]
    simp [streamLen]
  | cons e rest ih =>
    obtain ⟨hino, hoff, htype, hname⟩ := hwf e (List.mem_cons_self e rest)
    have hwf' : ∀ x ∈ rest, x.ino < 2 ^ 64 ∧ x.off < 2 ^ 64 ∧ x.type_ < 2 ^ 32 ∧
        x.name.length < 2 ^ 31 := fun x hx => hwf x (List.mem_cons_of_mem e hx)
    have hstream : encodeDirentStream (e :: rest) ++ junk =
        encodeDirent e ++ (encodeDirentStream rest ++ junk) := by
      simp [encodeDirentStream, List.append_assoc]
    have hsl : streamLen (e :: rest) = direntPaddedSize e + streamLen rest := by
      simp [streamLen]
    have hpos : (0 : Int) < (streamLen (e :: rest) : Int) := by
      have h0 : 0 < streamLen (e :: rest) := by
        rw [hsl]
        simp [direntPaddedSize, fuseDirent_size]
      exact_mod_cast h0
    rw [hstream, read_dirent_loop_cons e _ _ hino hoff htype hname hpos]
    have harg : (streamLen (e :: rest) : Int) - (direntPaddedSize e : Int) =
        (streamLen rest : Int) := by
      rw [hsl]
      push_cast
      ring
    rw [harg, ih junk hwf']
    simp

/-!  Claim theorems. -/

/-- C1, counterexample: the claim says every request carries a unique
identifier distinct from that of every other still-pending request on
its queue; in the source, a lookup and an open submitted back to back on
request queue 0 both carry unique equal to 0. -/
theorem c1_unique_not_distinct :
    (FilesystemDevice.lookup 1 testf01).header.unique =
      (FilesystemDevice.open_ 2 0).header.unique ∧
    (FilesystemDevice.lookup 1 testf01).header.unique = 0 ∧
    (FilesystemDevice.lookup 1 testf01).queue = (FilesystemDevice.open_ 2 0).queue :=
  ⟨rfl, rfl, rfl⟩

/-- C1, amended: every request the driver submits carries unique equal
to 0 in its FuseInHeader, except interrupt, whose header echoes the
unique of the request being interrupted; completions are therefore not
correlated by unique at all. -/
theorem c1_unique_always_zero (c : OpCall) :
    (submissionOf c).header.unique = c.uniqueArg := by
  cases c <;> rfl

/-- C2, code bug: batch_forget writes a header len of
size_of FuseBatchForgetIn plus size_of FuseInHeader, that is 48, while
the device-readable slice it hands to the virtqueue holds the header
plus one FuseForgetOne record per list entry, 56 bytes for a single
forget pair, so header.len differs from len_in. -/
theorem c2_batch_forget_len_mismatch :
    (FilesystemDevice.batch_forget [(2, 3)]).header.len = 48 ∧
    (FilesystemDevice.batch_forget [(2, 3)]).len_in = 56 ∧
    (FilesystemDevice.batch_forget [(2, 3)]).header.len ≠
      (FilesystemDevice.batch_forget [(2, 3)]).len_in := by
  refine ⟨by decide, by decide, by decide⟩

/-- C3, counterexample: the claim says Init is submitted on the
high-priority queue; the source's init locks and submits on request
queue 0. -/
theorem c3_init_on_request_queue :
    (FilesystemDevice.init).queue = QueueSel.request 0 ∧
    (FilesystemDevice.init).queue ≠ QueueSel.hiprio :=
  ⟨rfl, by decide⟩

/-- C3, amended: interrupt, forget and batch_forget are submitted on the
high-priority queue, while init and every filesystem data or metadata
operation are submitted on request queue 0. -/
theorem c3_queue_selection (c : OpCall) :
    (submissionOf c).queue =
      if c.isHiprioOp then QueueSel.hiprio else QueueSel.request 0 := by
  cases c <;> rfl

/-- C4: for every name of length L the padded tail built by fuse_pad_str
with the NUL flag has as its length the smallest multiple of 8 at least
L plus 1, and for every raw data payload the inline padding of write has
as its length the smallest multiple of 8 at least the data length; all
appended bytes are zero and taking the original length back recovers the
original bytes.  The bound keeps the u32 length arithmetic of the source
from wrapping. -/
theorem c4_padding_law (name data : List Nat) (h : name.length + 8 < 2 ^ 32) :
    isLeastMul8Geq (fuse_pad_str name true).length (name.length + 1) ∧
    isLeastMul8Geq (write_pad_data data).length data.length ∧
    (∀ b ∈ (fuse_pad_str name true).drop name.length, b = 0) ∧
    (∀ b ∈ (write_pad_data data).drop data.length, b = 0) ∧
    (fuse_pad_str name true).take name.length = name ∧
    (write_pad_data data).take data.length = data := by
  have hps := fuse_pad_str_true_eq name h
  have hq : write_pad_data data = data ++ List.replicate ((8 - data.length % 8) % 8) 0 := rfl
  have hlenp : (fuse_pad_str name true).length =
      name.length + (1 + padLen8 (name.length + 1)) := by
    rw [hps]
    simp
  have hlenq : (write_pad_data data).length = data.length + (8 - data.length % 8) % 8 := by
    rw [hq]
    simp
  refine ⟨?_, ?_, ?_, ?_, ?_, ?_⟩
  · rw [hlenp]
    unfold isLeastMul8Geq padLen8
    refine ⟨by omega, by omega, fun m hm hnm => by omega⟩
  · rw [hlenq]
    unfold isLeastMul8Geq
    refine ⟨by omega, by omega, fun m hm hnm => by omega⟩
  · intro b hb
    rw [hps, List.drop_left' rfl] at hb
    exact List.eq_of_mem_replicate hb
  · intro b hb
    rw [hq, List.drop_left' rfl] at hb
    exact List.eq_of_mem_replicate hb
  · rw [hps]
    exact List.take_left' rfl
  · rw [hq]
    exact List.take_left' rfl

/-- C4 witness at the concrete name testf01 and payload 1 2 3. -/
theorem c4_padding_law_witness :
    testf01.length + 8 < 2 ^ 32 ∧
    (isLeastMul8Geq (fuse_pad_str testf01 true).length (testf01.length + 1) ∧
      isLeastMul8Geq (write_pad_data [1, 2, 3]).length ([1, 2, 3] : List Nat).length ∧
      (∀ b ∈ (fuse_pad_str testf01 true).drop testf01.length, b = 0) ∧
      (∀ b ∈ (write_pad_data [1, 2, 3]).drop ([1, 2, 3] : List Nat).length, b = 0) ∧
      (fuse_pad_str testf01 true).take testf01.length = testf01 ∧
      (write_pad_data [1, 2, 3]).take ([1, 2, 3] : List Nat).length = [1, 2, 3]) :=
  ⟨by decide, c4_padding_law testf01 [1, 2, 3] (by decide)⟩

/-- C5: a writable region that carries K 8-byte-padded FuseDirent records
whose padded sizes sum exactly to out_header.len minus the size of
FuseOutHeader decodes, by the read_dirent loop of request.rs, to exactly
those K entries in stored order with every name recovered byte-exact;
the junk suffix is arbitrary, so the decoder reads nothing past the
declared length. -/
theorem c5_directory_decode (es : List DirentSpec) (junk : List Nat)
    (out_header : FuseOutHeader)
    (hwf : ∀ e ∈ es, e.ino < 2 ^ 64 ∧ e.off < 2 ^ 64 ∧ e.type_ < 2 ^ 32 ∧
      e.name.length < 2 ^ 31)
    (hlen : out_header.len = fuseOutHeader_size + streamLen es)
    (hbound : out_header.len < 2 ^ 31) :
    read_dirent (encodeDirentStream es ++ junk) out_header = some (es.map decodedOf) ∧
    (es.map decodedOf).length = es.length := by
  constructor
  · unfold read_dirent
    rw [i32ofU32_of_lt _ hbound, hlen]
    have hcast : ((fuseOutHeader_size + streamLen es : Nat) : Int) -
        (fuseOutHeader_size : Int) = (streamLen es : Int) := by
      push_cast
      ring
    rw [hcast]
    exact read_dirent_loop_encode es junk hwf
  · simp

/-- C5 witness: a single padded record with name byte 97 inside a region
declaring 48 bytes, followed by three junk bytes. -/
theorem c5_directory_decode_witness :
    (∀ e ∈ [DirentSpec.mk 1 0 4 [97]], e.ino < 2 ^ 64 ∧ e.off < 2 ^ 64 ∧
      e.type_ < 2 ^ 32 ∧ e.name.length < 2 ^ 31) ∧
    (FuseOutHeader.mk 48 0 0).len = fuseOutHeader_size + streamLen [DirentSpec.mk 1 0 4 [97]] ∧
    (FuseOutHeader.mk 48 0 0).len < 2 ^ 31 ∧
    (read_dirent (encodeDirentStream [DirentSpec.mk 1 0 4 [97]] ++ [7, 7, 7])
        (FuseOutHeader.mk 48 0 0) =
      some ([DirentSpec.mk 1 0 4 [97]].map decodedOf) ∧
      ([DirentSpec.mk 1 0 4 [97]].map decodedOf).length =
        [DirentSpec.mk 1 0 4 [97]].length) :=
  ⟨by decide, by decide, by decide,
    c5_directory_decode [DirentSpec.mk 1 0 4 [97]] [7, 7, 7] (FuseOutHeader.mk 48 0 0)
      (by decide) (by decide) (by decide)⟩

/-- C6, counterexample: the claim says a successful lookup reply is 176
bytes with a 160-byte FuseEntryOut; in the source layout FuseEntryOut is
128 bytes and the response region lookup pre-allocates after the 48-byte
readable request is 16 plus 128, that is 144 bytes. -/
theorem c6_reply_size_counterexample :
    fuseEntryOut_size = 128 ∧ fuseEntryOut_size ≠ 160 ∧
    (FilesystemDevice.lookup 1 testf01).concat_len -
      (FilesystemDevice.lookup 1 testf01).len_in = 144 ∧
    (FilesystemDevice.lookup 1 testf01).concat_len -
      (FilesystemDevice.lookup 1 testf01).len_in ≠ 176 := by
  refine ⟨by decide, by decide, by decide, by decide⟩

/-- C6, amended: encoding lookup of nodeid 1 and name testf01 produces a
device-readable request of exactly 48 bytes, the 40-byte FuseInHeader
followed by the name with its NUL terminator padded to 8 bytes, with
header.len equal to 48; the pre-sized reply region is 144 bytes, the
16-byte out-header followed by the 128-byte FuseEntryOut the decode arm
reads. -/
theorem c6_lookup_scenario :
    (FilesystemDevice.lookup 1 testf01).header.len = 48 ∧
    (FilesystemDevice.lookup 1 testf01).len_in = 48 ∧
    fuse_pad_str testf01 true = testf01 ++ [0] ∧
    (FilesystemDevice.lookup 1 testf01).concat_len -
      (FilesystemDevice.lookup 1 testf01).len_in =
      fuseOutHeader_size + fuseEntryOut_size ∧
    fuseOutHeader_size + fuseEntryOut_size = 144 := by
  refine ⟨by decide, by decide, by decide, by decide, by decide⟩

/-- C7: the FuseRead arm of handle_recv_irq consumes exactly
out_header.len minus the 16-byte FuseOutHeader payload bytes whenever
the region still holds that many, and consumes none when out_header.len
equals the header size; the pre-allocated response capacity never enters
the computation. -/
theorem c7_read_payload_len (hlen avail : Nat)
    (h1 : fuseOutHeader_size ≤ hlen) (h2 : hlen - fuseOutHeader_size ≤ avail) :
    fuse_read_arm_payload hlen avail = hlen - fuseOutHeader_size ∧
    fuse_read_arm_payload fuseOutHeader_size avail = 0 := by
  unfold fuse_read_arm_payload
  constructor
  · by_cases hc : fuseOutHeader_size < hlen
    · rw [if_pos hc]
      omega
    · rw [if_neg hc]
      omega
  · rw [if_neg (by omega)]

/-- C7 witness at a 20-byte reply against a 1024-byte region. -/
theorem c7_read_payload_len_witness :
    fuseOutHeader_size ≤ 20 ∧ 20 - fuseOutHeader_size ≤ 1024 ∧
    (fuse_read_arm_payload 20 1024 = 20 - fuseOutHeader_size ∧
      fuse_read_arm_payload fuseOutHeader_size 1024 = 0) :=
  ⟨by decide, by decide, c7_read_payload_len 20 1024 (by decide) (by decide)⟩

/-- C8, code bug: after submitting its descriptor pair, rename2 never
rings the doorbell even when should_notify answers true, unlike rename
and every other operation, which notify exactly when should_notify says
so. -/
theorem c8_rename2_never_notifies :
    (FilesystemDevice.rename2 2 testf01 1 testf01 0).notifyOn true = false ∧
    (FilesystemDevice.rename 2 testf01 1 testf01).notifyOn true = true :=
  ⟨rfl, rfl⟩

/-- C9, code bug: the let-else at the head of handle_recv_irq turns an
error from the queue pop into a bare early return, so the error is
dropped silently and no caller receives a typed error. -/
theorem c9_pop_error_dropped : handle_recv_irq_pop PopResult.err = none := rfl

/-- C10: for every argument triple, the fsync encoder writes the opcode
value of FuseFsyncdir, 30, the same value fsyncdir writes, and never the
FuseFsync value 20. -/
theorem c10_fsync_opcode (nodeid fh fsync_flags : Nat) :
    (FilesystemDevice.fsync nodeid fh fsync_flags).header.opcode =
      FuseOpcode.toU32 .FuseFsyncdir ∧
    (FilesystemDevice.fsyncdir nodeid fh fsync_flags).header.opcode =
      FuseOpcode.toU32 .FuseFsyncdir ∧
    FuseOpcode.toU32 .FuseFsyncdir = 30 ∧ FuseOpcode.toU32 .FuseFsync = 20 ∧
    (FilesystemDevice.fsync nodeid fh fsync_flags).header.opcode ≠
      FuseOpcode.toU32 .FuseFsync :=
  ⟨rfl, rfl, rfl, rfl, fun hcon => absurd (show (30 : Nat) = 20 from hcon) (by decide)⟩

end VirtioFs

